import Mathlib

/-!
Verification of the CATS work-order search/filter engine.

The `src/` directory of the repository holds only the Angular frontend (request/response
interfaces, the search component, services).  The backend core described by
the design document — the SearchCriteria normalizer, the StrategyMatcher,
the FilterEngine and the SearchResponse builder — is not present under
`src/`, so those components are modelled here from the words of the design
document, while the frontend component logic (the search subscription handler
and the legacy `onStrategyChange`) is embedded directly from the TypeScript
source.
-/

namespace CATS

/-- Modelled from the spec: a calendar date at calendar-date granularity
(§3: the date range has "same calendar-date granularity"). -/
structure Date where
  year : Nat
  month : Nat
  day : Nat
deriving DecidableEq, Repr

/-- Modelled from the spec: lexicographic year/month/day order on calendar
dates, the order used by the inclusive date-range predicate. -/
def Date.le (a b : Date) : Bool :=
  decide (a.year < b.year) ||
    (a.year == b.year &&
      (decide (a.month < b.month) ||
        (a.month == b.month && decide (a.day ≤ b.day))))

/-- Modelled from the spec: strict lexicographic order on calendar dates,
used for the `date_from > date_to` inversion check. -/
def Date.lt (a b : Date) : Bool :=
  decide (a.year < b.year) ||
    (a.year == b.year &&
      (decide (a.month < b.month) ||
        (a.month == b.month && decide (a.day < b.day))))

/-- Numeric value of a list of decimal digit characters. -/
def digitsToNat (l : List Char) : Nat :=
  l.foldl (fun n c => n * 10 + (c.toNat - 48)) 0

/-- Modelled from the spec: the backend normalizer "parses
`date_from`/`date_to` as calendar dates" (§4.1); the wire contract (§6)
says ISO calendar date.  Accepts exactly `YYYY-MM-DD` with a plausible
month and day; anything else is unparsable. -/
def parseDate (s : String) : Option Date :=
  match s.data with
  | [y1, y2, y3, y4, c1, m1, m2, c2, d1, d2] =>
    if (c1 == '-' && c2 == '-'
        && [y1, y2, y3, y4, m1, m2, d1, d2].all Char.isDigit) then
      let m := digitsToNat [m1, m2]
      let d := digitsToNat [d1, d2]
      if 1 ≤ m ∧ m ≤ 12 ∧ 1 ≤ d ∧ d ≤ 31 then
        some ⟨digitsToNat [y1, y2, y3, y4], m, d⟩
      else none
    else none
  | _ => none

/-- Modelled from the spec: the fixed strategy enumeration
`{TEMSA_GLOBAL, TEMSA_GLOBAL_GWTK, GERMANY, FRANCE, NORTH_AMERICA}` (§3). -/
inductive StrategyId where
  | TEMSA_GLOBAL
  | TEMSA_GLOBAL_GWTK
  | GERMANY
  | FRANCE
  | NORTH_AMERICA
deriving DecidableEq, Repr

/-- Modelled from the spec: an immutable work-order record snapshot (§3).
Creation date, dealer code, VIN and work-order number are the matched
fields; the store attaches exactly one strategy classification per record
(§4.2); the remaining fields (per the wire shape in §6 and the frontend
`WorkOrderItem` interface) are display-only and never matched. -/
structure WorkOrderRecord where
  credate : Date
  dealer_code : String
  vin : String
  wono : String
  strategy : StrategyId
  wo_status : Option String := none
  wo_status_text : Option String := none
  wo_type : Option String := none
  wo_type_text : Option String := none
  fg_status_text : Option String := none
  creuser : Option String := none
  ra_country_text : Option String := none
  wo_onay_text : Option String := none
  enability_button : Bool := false
deriving DecidableEq, Repr

/-- Modelled from the spec: the normalized query (§3): optional VIN
(uppercased at normalization), optional dealer code, optional work-order
number, optional inclusive date range, and the set of selected strategies. -/
structure SearchCriteria where
  vin : Option String
  dealer_code : Option String
  wo_no : Option String
  date_from : Option Date
  date_to : Option Date
  strategies : List StrategyId
deriving DecidableEq, Repr

/-- Raw search request, embedded from the `WorkOrderSearchRequest`
interface in src/unnamed/part_001 (and the wire contract in §6): all
fields optional except the two identity fields, which default to fixed
values. -/
structure WorkOrderSearchRequest where
  i_lang : String := "EN"
  i_usercode : String := "TESTUSER"
  vin : Option String := none
  dealer_code : Option String := none
  wo_no : Option String := none
  date_from : Option String := none
  date_to : Option String := none
  temsa_global : Option Bool := none
  temsa_global_gwk : Option Bool := none
  germany : Option Bool := none
  france : Option Bool := none
  north_america : Option Bool := none
deriving DecidableEq, Repr

/-- Modelled from the spec: the validation errors of the normalizer (§4.1):
`invalid_date` for unparsable date input, `date_range_inverted` when both
bounds are present and `date_from > date_to`. -/
inductive ValidationError where
  | invalid_date
  | date_range_inverted
deriving DecidableEq, Repr

/-- Error code string of a validation error, as named in §4.1. -/
def ValidationError.message : ValidationError → String
  | .invalid_date => "invalid_date"
  | .date_range_inverted => "date_range_inverted"

/-- Whitespace test for trimming. -/
def isWs (c : Char) : Bool :=
  c == ' ' || c == '\t' || c == '\n' || c == '\r'

/-- Modelled from the spec: case normalization ("uppercased", §4.1),
applied character by character. -/
def strUpper (s : String) : String :=
  ⟨s.data.map Char.toUpper⟩

/-- Modelled from the spec: trimming of criteria values (§4.1), dropping
leading and trailing whitespace. -/
def strTrim (s : String) : String :=
  ⟨((s.data.dropWhile isWs).reverse.dropWhile isWs).reverse⟩

/-- Modelled from the spec: the normalizer "trims and discards criteria
whose value is an empty string (treated as not specified)" (§4.1). -/
def normTrim (s : Option String) : Option String :=
  match s with
  | none => none
  | some t => if strTrim t = "" then none else some (strTrim t)

/-- Modelled from the spec: parse one optional date field (§4.1): absent
or blank means no bound; present but unparsable fails with
`invalid_date`. -/
def parseOptDate (s : Option String) : Except ValidationError (Option Date) :=
  match normTrim s with
  | none => .ok none
  | some t =>
    match parseDate t with
    | none => .error .invalid_date
    | some d => .ok (some d)

/-- Modelled from the spec: true when both bounds are present and
`date_from > date_to` (§4.1). -/
def dateRangeInverted : Option Date → Option Date → Bool
  | some a, some b => Date.lt b a
  | _, _ => false

/-- Modelled from the spec: "maps each boolean strategy flag present and
true into a member of the strategy enumeration; flags absent or false
contribute nothing" (§4.1). -/
def strategiesOf (req : WorkOrderSearchRequest) : List StrategyId :=
  (if req.temsa_global.getD false then [StrategyId.TEMSA_GLOBAL] else []) ++
  (if req.temsa_global_gwk.getD false then [StrategyId.TEMSA_GLOBAL_GWTK] else []) ++
  (if req.germany.getD false then [StrategyId.GERMANY] else []) ++
  (if req.france.getD false then [StrategyId.FRANCE] else []) ++
  (if req.north_america.getD false then [StrategyId.NORTH_AMERICA] else [])

/-- Modelled from the spec: the SearchCriteria normalizer (§4.1) — a pure
function from the raw request to a `SearchCriteria` or a
`ValidationError`; the VIN is uppercased here, once, so downstream
comparisons are case-normalized. -/
def normalize (req : WorkOrderSearchRequest) :
    Except ValidationError SearchCriteria :=
  match parseOptDate req.date_from, parseOptDate req.date_to with
  | .error e, _ => .error e
  | .ok _, .error e => .error e
  | .ok df, .ok dt =>
    if dateRangeInverted df dt then
      .error .date_range_inverted
    else
      .ok { vin := (normTrim req.vin).map strUpper
            dealer_code := normTrim req.dealer_code
            wo_no := normTrim req.wo_no
            date_from := df
            date_to := dt
            strategies := strategiesOf req }

/-- True when `needle` is a prefix of `hay` (character lists). -/
def listPrefixEq : List Char → List Char → Bool
  | [], _ => true
  | _ :: _, [] => false
  | a :: as, b :: bs => a == b && listPrefixEq as bs

/-- True when `needle` occurs as a contiguous substring of `hay`
(character lists). -/
def listContains (needle hay : List Char) : Bool :=
  match hay with
  | [] => needle.isEmpty
  | _ :: t => listPrefixEq needle hay || listContains needle t

/-- Modelled from the spec: substring containment on strings, the
"contain as a substring (partial match)" test of §4.3. -/
def strContains (hay needle : String) : Bool :=
  listContains needle.data hay.data

/-- Modelled from the spec: StrategyMatcher (§4.2) — empty selection means
no constraint; otherwise the single strategy classification of the record must
be a member of the selected set. -/
def StrategyMatcher.matches (r : WorkOrderRecord)
    (selectedStrategies : List StrategyId) : Bool :=
  selectedStrategies.isEmpty || selectedStrategies.contains r.strategy

/-- Modelled from the spec: VIN predicate (§4.3 step 1) — if `criteria.vin`
is set, the case-normalized record VIN must contain the criteria VIN
(already uppercased at normalization) as a substring. -/
def vinPred (c : SearchCriteria) (r : WorkOrderRecord) : Bool :=
  match c.vin with
  | none => true
  | some v => strContains (strUpper r.vin) v

/-- Modelled from the spec: dealer-code predicate (§4.3 step 2) —
case-insensitive substring match. -/
def dealerPred (c : SearchCriteria) (r : WorkOrderRecord) : Bool :=
  match c.dealer_code with
  | none => true
  | some v => strContains (strUpper r.dealer_code) (strUpper v)

/-- Modelled from the spec: work-order-number predicate (§4.3 step 3) —
case-insensitive substring match. -/
def woNoPred (c : SearchCriteria) (r : WorkOrderRecord) : Bool :=
  match c.wo_no with
  | none => true
  | some v => strContains (strUpper r.wono) (strUpper v)

/-- Modelled from the spec: date-range predicate (§4.3 step 4) — the
creation date of the record must fall within the inclusive range; an unset
bound leaves that side open. -/
def datePred (c : SearchCriteria) (r : WorkOrderRecord) : Bool :=
  (match c.date_from with
   | none => true
   | some a => Date.le a r.credate) &&
  (match c.date_to with
   | none => true
   | some b => Date.le r.credate b)

/-- Modelled from the spec: strategy predicate (§4.3 step 5) — delegates
to the StrategyMatcher. -/
def strategyPred (c : SearchCriteria) (r : WorkOrderRecord) : Bool :=
  StrategyMatcher.matches r c.strategies

/-- Modelled from the spec: one record against all five predicates in the
fixed order of §4.3, short-circuiting on the first failure. -/
def recordMatches (c : SearchCriteria) (r : WorkOrderRecord) : Bool :=
  vinPred c r && (dealerPred c r && (woNoPred c r &&
    (datePred c r && strategyPred c r)))

/-- Modelled from the spec: FilterEngine.search (§4.3) — a single linear
scan over the records, keeping those that pass all active predicates, in
source order. -/
def FilterEngine.search (c : SearchCriteria) :
    List WorkOrderRecord → List WorkOrderRecord
  | [] => []
  | r :: rs =>
    if recordMatches c r then r :: FilterEngine.search c rs
    else FilterEngine.search c rs

/-- Modelled from the spec: the response error taxonomy (§7). -/
inductive ErrorType where
  | validation_error
  | source_error
deriving DecidableEq, Repr

/-- Modelled from the spec: the search response contract (§6/§4.4);
`work_orders` is present (possibly the empty array) exactly on success. -/
structure SearchResponse where
  success : Bool
  message : String
  work_orders : Option (List WorkOrderRecord)
  error_type : Option ErrorType
deriving DecidableEq, Repr

/-- Modelled from the spec: the success shape of the builder (§4.4) —
`{success: true, work_orders: [...]}`. -/
def buildSuccess (l : List WorkOrderRecord) : SearchResponse :=
  { success := true, message := "", work_orders := some l, error_type := none }

/-- Modelled from the spec: the validation-failure shape of the builder (§4.4,
§7) — `success:false` with `error_type:"validation_error"` and no
`work_orders`. -/
def buildValidationFailure (e : ValidationError) : SearchResponse :=
  { success := false, message := e.message, work_orders := none
    error_type := some ErrorType.validation_error }

/-- Modelled from the spec: the store-failure shape of the builder (§4.4, §7) —
`success:false` with `error_type:"source_error"`, the failure of the store
propagated unchanged. -/
def buildSourceFailure (m : String) : SearchResponse :=
  { success := false, message := m, work_orders := none
    error_type := some ErrorType.source_error }

/-- Result of enumerating the backing record store: the record list, or a
store failure message (§4.3 failure modes). -/
abbrev StoreResult := Except String (List WorkOrderRecord)

/-- Modelled from the spec: the full control flow of §2 — raw request →
normalizer → FilterEngine over the records of the store → response builder. -/
def handleSearch (req : WorkOrderSearchRequest) (store : StoreResult) :
    SearchResponse :=
  match normalize req with
  | .error e => buildValidationFailure e
  | .ok c =>
    match store with
    | .error m => buildSourceFailure m
    | .ok recs => buildSuccess (FilterEngine.search c recs)

/-- Work-order row as the frontend receives it, embedded from the
`WorkOrderItem` interface in src/unnamed/part_001: all fields optional. -/
structure WorkOrderItem where
  credate : Option String := none
  dealer_code : Option String := none
  vin : Option String := none
  wo_status : Option String := none
  wo_status_text : Option String := none
  wo_type : Option String := none
  wo_type_text : Option String := none
  fg_status_text : Option String := none
  pds : Option String := none
  demo : Option String := none
  wono : Option String := none
  creuser : Option String := none
  ra_country_text : Option String := none
  wo_onay_text : Option String := none
  reject_note : Option String := none
  enability_button : Option Bool := none
deriving DecidableEq, Repr

/-- Service response as the component consumes it (src/unnamed/part_001:
the callback receives `response: any` and guards `work_orders` with
`|| []`, so `work_orders` may be absent). -/
structure FrontResponse where
  success : Bool
  message : String
  work_orders : Option (List WorkOrderItem)
deriving DecidableEq, Repr

/-- The mutable fields of `WorkOrderSearchComponent` that
`searchWorkOrders` touches (src/unnamed/part_001). -/
structure ComponentState where
  workOrders : List WorkOrderItem
  isLoading : Bool
  error : String
  hasSearched : Bool
deriving DecidableEq, Repr

/-- The synchronous head of `WorkOrderSearchComponent.searchWorkOrders`
(src/unnamed/part_001): sets `isLoading`, clears `error`, resets
`hasSearched` before the request is issued. -/
def searchStart (st : ComponentState) : ComponentState :=
  { st with isLoading := true, error := "", hasSearched := false }

/-- The `next` callback of the subscription in `searchWorkOrders`
(src/unnamed/part_001): on `success` replace `workOrders` (defaulting to
the empty array) and mark `hasSearched`; otherwise set only the error
message; either way clear `isLoading`. -/
def handleNext (st : ComponentState) (resp : FrontResponse) :
    ComponentState :=
  if resp.success then
    { st with workOrders := resp.work_orders.getD []
              hasSearched := true
              isLoading := false }
  else
    { st with error := resp.message, isLoading := false }

/-- One full `searchWorkOrders` round trip at the component-state level:
the synchronous head followed by the `next` callback on the
response of the service. -/
def searchRound (st : ComponentState) (resp : FrontResponse) :
    ComponentState :=
  handleNext (searchStart st) resp

/-- Legacy raw search request, embedded from the `WorkOrderSearchRequest`
interface in
src/frontend/src/app/components/work-order-search/work-order-search.ts:
eight single-character strategy flags plus type/status/user criteria. -/
structure LegacyWorkOrderSearchRequest where
  i_lang : String := "EN"
  i_usercode : String := "TESTUSER"
  wo_type : Option String := none
  wo_type_multi : Option String := none
  wo_status : Option String := none
  wo_status_multi : Option String := none
  fg_status_multi : Option String := none
  country : Option String := none
  wonay : Option String := none
  ra_country : Option String := none
  vin : Option String := none
  ostrateji_td : Option String := none
  ostrateji_tg : Option String := none
  ostrateji_ti : Option String := none
  ostrateji_tf : Option String := none
  ostrateji_tx : Option String := none
  ostrateji_ty : Option String := none
  ostrateji_tz : Option String := none
  ostrateji_tu : Option String := none
  zcats_wo_conv : Option String := none
  creuser : Option String := none
  zgos : Option String := none
  demo : Option String := none
deriving DecidableEq, Repr

/-- Initial `searchCriteria` of the legacy component
(work-order-search.ts): only the two identity fields are set. -/
def initialLegacyCriteria : LegacyWorkOrderSearchRequest :=
  { i_lang := "EN", i_usercode := "TESTUSER" }

/-- `WorkOrderSearchComponent.onStrategyChange` (work-order-search.ts
lines 170-190): clear all eight `ostrateji_*` flags, then set the one
matching the argument (if any) to the string X. -/
def onStrategyChange (strategy : String)
    (c : LegacyWorkOrderSearchRequest) : LegacyWorkOrderSearchRequest :=
  let c0 := { c with ostrateji_td := none, ostrateji_tg := none
                     ostrateji_ti := none, ostrateji_tf := none
                     ostrateji_tx := none, ostrateji_ty := none
                     ostrateji_tz := none, ostrateji_tu := none }
  if strategy = "TG" then { c0 with ostrateji_tg := some "X" }
  else if strategy = "TI" then { c0 with ostrateji_ti := some "X" }
  else if strategy = "TD" then { c0 with ostrateji_td := some "X" }
  else if strategy = "TF" then { c0 with ostrateji_tf := some "X" }
  else if strategy = "TU" then { c0 with ostrateji_tu := some "X" }
  else if strategy = "TX" then { c0 with ostrateji_tx := some "X" }
  else if strategy = "TY" then { c0 with ostrateji_ty := some "X" }
  else if strategy = "TZ" then { c0 with ostrateji_tz := some "X" }
  else c0

/-- Number of `ostrateji_*` flags set on a legacy request. -/
def strategyFlagCount (c : LegacyWorkOrderSearchRequest) : Nat :=
  (if c.ostrateji_td.isSome then 1 else 0) +
  (if c.ostrateji_tg.isSome then 1 else 0) +
  (if c.ostrateji_ti.isSome then 1 else 0) +
  (if c.ostrateji_tf.isSome then 1 else 0) +
  (if c.ostrateji_tx.isSome then 1 else 0) +
  (if c.ostrateji_ty.isSome then 1 else 0) +
  (if c.ostrateji_tz.isSome then 1 else 0) +
  (if c.ostrateji_tu.isSome then 1 else 0)

/-! Helper lemmas shared by the claim theorems. -/

/-- The linear scan of the filter engine is `List.filter` of the combined
record predicate. -/
theorem search_eq_filter (c : SearchCriteria) (rs : List WorkOrderRecord) :
    FilterEngine.search c rs = rs.filter (fun r => recordMatches c r) := by
  induction rs with
  | nil => rfl
  | cons r rs ih =>
    simp only [FilterEngine.search, List.filter_cons, ih]

/-- Membership in a search result means membership in the input together
with the combined predicate. -/
theorem mem_search (c : SearchCriteria) (r : WorkOrderRecord)
    (rs : List WorkOrderRecord) :
    r ∈ FilterEngine.search c rs ↔ r ∈ rs ∧ recordMatches c r = true := by
  rw [search_eq_filter]
  simp [List.mem_filter]

/-- The calendar-date order is reflexive. -/
theorem date_le_refl (d : Date) : Date.le d d = true := by
  simp [Date.le]

/-- Every character list is a prefix of itself. -/
theorem listPrefixEq_refl (l : List Char) : listPrefixEq l l = true := by
  induction l with
  | nil => rfl
  | cons a as ih => simp [listPrefixEq, ih]

/-- Every character list contains itself. -/
theorem listContains_refl (l : List Char) : listContains l l = true := by
  cases l with
  | nil => rfl
  | cons a t => simp [listContains, listPrefixEq_refl]

/-- Every string contains itself as a substring. -/
theorem strContains_self (s : String) : strContains s s = true :=
  listContains_refl s.data

/-- The optional-date parser only ever fails with `invalid_date`. -/
theorem parseOptDate_error (s : Option String) (e : ValidationError)
    (h : parseOptDate s = Except.error e) : e = ValidationError.invalid_date := by
  cases hn : normTrim s with
  | none => simp [parseOptDate, hn] at h
  | some t =>
    cases hp : parseDate t with
    | none =>
      simp [parseOptDate, hn, hp] at h
      exact h.symm
    | some d => simp [parseOptDate, hn, hp] at h

/-- Claim C1: `FilterEngine.search` keeps exactly the records that satisfy the
conjunction of the five active predicates (VIN, dealer code, work-order
number, date range, strategy), and returns the kept records in the same
relative order as the input sequence (the result is a sublist of the
input). -/
theorem C1_search_is_ordered_conjunctive_filter (c : SearchCriteria)
    (rs : List WorkOrderRecord) :
    FilterEngine.search c rs =
      rs.filter (fun r => vinPred c r && dealerPred c r && woNoPred c r &&
        datePred c r && strategyPred c r) ∧
    (FilterEngine.search c rs).Sublist rs := by
  have hmatch : ∀ r, recordMatches c r =
      (vinPred c r && dealerPred c r && woNoPred c r &&
        datePred c r && strategyPred c r) := by
    intro r
    simp [recordMatches, Bool.and_assoc]
  constructor
  · rw [search_eq_filter]
    exact List.filter_congr (fun r _ => hmatch r)
  · rw [search_eq_filter]
    exact List.filter_sublist rs

/-- Claim C2: `StrategyMatcher.matches` returns true for every record when the
selected-strategy set is empty, and for a non-empty selection it returns
true exactly when the single strategy classification of the record is a
member of the selection (OR across the selected strategies). -/
theorem C2_strategy_matcher_empty_or_membership (r : WorkOrderRecord)
    (selectedStrategies : List StrategyId) :
    StrategyMatcher.matches r selectedStrategies = true ↔
      (selectedStrategies = [] ∨ r.strategy ∈ selectedStrategies) := by
  simp [StrategyMatcher.matches, List.isEmpty_iff]

/-- Claim C6: the search is idempotent and deterministic — it is a pure function
of criteria and records, and filtering an already-filtered result with the
same criteria changes nothing, so two runs over the unchanged sequence
give identical, identically-ordered results. -/
theorem C6_search_idempotent (c : SearchCriteria)
    (rs : List WorkOrderRecord) :
    FilterEngine.search c (FilterEngine.search c rs) =
      FilterEngine.search c rs ∧
    FilterEngine.search c rs = FilterEngine.search c rs := by
  refine ⟨?_, rfl⟩
  simp only [search_eq_filter]
  exact List.filter_eq_self.mpr (fun a ha => (List.mem_filter.mp ha).2)

/-- Claim C7: a request with no criteria fields set (only the defaulted identity
fields `i_lang = "EN"` and `i_usercode = "TESTUSER"`) is the identity on
the dataset: the response is a success carrying every record in original
order. -/
theorem C7_no_criteria_returns_everything (rs : List WorkOrderRecord) :
    handleSearch { i_lang := "EN", i_usercode := "TESTUSER" }
      (Except.ok rs) = buildSuccess rs := by
  have hn : normalize { i_lang := "EN", i_usercode := "TESTUSER" } =
      Except.ok { vin := none, dealer_code := none, wo_no := none,
                  date_from := none, date_to := none, strategies := [] } := rfl
  simp only [handleSearch, hn]
  congr 1
  rw [search_eq_filter]
  apply List.filter_eq_self.mpr
  intro a _
  simp [recordMatches, vinPred, dealerPred, woNoPred, datePred,
        strategyPred, StrategyMatcher.matches]

/-- Claim C8: every response from the pipeline has exactly one of two shapes —
success with `work_orders` present (possibly empty) and no error type, or
failure with no `work_orders` and an error type that is either
`validation_error` or `source_error`. -/
theorem C8_response_has_exactly_two_shapes (req : WorkOrderSearchRequest)
    (store : StoreResult) :
    ((handleSearch req store).success = true ∧
      (∃ l, (handleSearch req store).work_orders = some l) ∧
      (handleSearch req store).error_type = none) ∨
    ((handleSearch req store).success = false ∧
      (handleSearch req store).work_orders = none ∧
      ((handleSearch req store).error_type = some ErrorType.validation_error ∨
       (handleSearch req store).error_type = some ErrorType.source_error)) := by
  unfold handleSearch
  cases normalize req with
  | error e =>
    right
    simp [buildValidationFailure]
  | ok c =>
    cases store with
    | error m =>
      right
      simp [buildSourceFailure]
    | ok recs =>
      left
      simp [buildSuccess]

/-- Claim C3: when both date bounds are present and parse as calendar dates with
`date_from > date_to`, normalization fails with `date_range_inverted` and
the pipeline never produces a result set; unparsable date input fails with
`invalid_date`, again with no result set. -/
theorem C3_date_validation_blocks_search :
    (∀ (req : WorkOrderSearchRequest) (store : StoreResult) (a b : Date),
       parseOptDate req.date_from = Except.ok (some a) →
       parseOptDate req.date_to = Except.ok (some b) →
       Date.lt b a = true →
       normalize req = Except.error ValidationError.date_range_inverted ∧
       (handleSearch req store).success = false ∧
       (handleSearch req store).work_orders = none) ∧
    (∀ (req : WorkOrderSearchRequest) (store : StoreResult),
       (parseOptDate req.date_from = Except.error ValidationError.invalid_date ∨
        parseOptDate req.date_to = Except.error ValidationError.invalid_date) →
       normalize req = Except.error ValidationError.invalid_date ∧
       (handleSearch req store).success = false ∧
       (handleSearch req store).work_orders = none) := by
  constructor
  · intro req store a b hf ht hlt
    have hn : normalize req = Except.error ValidationError.date_range_inverted := by
      simp [normalize, hf, ht, dateRangeInverted, hlt]
    exact ⟨hn, by simp [handleSearch, hn, buildValidationFailure],
               by simp [handleSearch, hn, buildValidationFailure]⟩
  · intro req store h
    have hn : normalize req = Except.error ValidationError.invalid_date := by
      cases hf : parseOptDate req.date_from with
      | error e =>
        have he := parseOptDate_error req.date_from e hf
        subst he
        simp [normalize, hf]
      | ok df =>
        cases h with
        | inl h1 => simp [hf] at h1
        | inr h2 => simp [normalize, hf, h2]
    exact ⟨hn, by simp [handleSearch, hn, buildValidationFailure],
               by simp [handleSearch, hn, buildValidationFailure]⟩

/-- Witness for C3 at concrete inputs: an inverted range and an
unparsable date both fail normalization with the right error. -/
theorem C3_witness :
    normalize { date_from := some "2024-03-10", date_to := some "2024-03-01" } =
      Except.error ValidationError.date_range_inverted ∧
    normalize { date_from := some "garbage" } =
      Except.error ValidationError.invalid_date := by
  constructor
  · exact (C3_date_validation_blocks_search.1
      { date_from := some "2024-03-10", date_to := some "2024-03-01" }
      (Except.ok []) ⟨2024, 3, 10⟩ ⟨2024, 3, 1⟩ (by rfl) (by rfl) (by rfl)).1
  · exact (C3_date_validation_blocks_search.2
      { date_from := some "garbage" } (Except.ok [])
      (Or.inl (by rfl))).1

/-- Claim C4: the VIN predicate is a case-insensitive substring test — the
criteria VIN is uppercased once at normalization, a record passes exactly
when its case-normalized VIN contains the criteria VIN, and searching
with the exact VIN of a record in any letter case returns a result set
containing that record. -/
theorem C4_vin_predicate_case_insensitive_substring :
    (∀ (c : SearchCriteria) (r : WorkOrderRecord) (v : String),
       c.vin = some v →
       (vinPred c r = true ↔ strContains (strUpper r.vin) v = true)) ∧
    (∀ v : String, strTrim v = v → v ≠ "" →
       normalize { vin := some v } =
         Except.ok { vin := some (strUpper v), dealer_code := none,
                     wo_no := none, date_from := none, date_to := none,
                     strategies := [] }) ∧
    (∀ (r : WorkOrderRecord) (rs : List WorkOrderRecord) (v : String),
       r ∈ rs → strUpper v = strUpper r.vin → strTrim v = v → v ≠ "" →
       ∃ l, (handleSearch { vin := some v } (Except.ok rs)).work_orders =
              some l ∧ r ∈ l) := by
  have hnormVin : ∀ v : String, strTrim v = v → v ≠ "" →
      normalize { vin := some v } =
        Except.ok { vin := some (strUpper v), dealer_code := none,
                    wo_no := none, date_from := none, date_to := none,
                    strategies := [] } := by
    intro v htrim hne
    simp [normalize, parseOptDate, normTrim, dateRangeInverted,
          strategiesOf, htrim, hne]
  refine ⟨?_, hnormVin, ?_⟩
  · intro c r v h
    simp [vinPred, h]
  · intro r rs v hmem hupper htrim hne
    have hn := hnormVin v htrim hne
    refine ⟨FilterEngine.search
        { vin := some (strUpper v), dealer_code := none, wo_no := none,
          date_from := none, date_to := none, strategies := [] } rs, ?_, ?_⟩
    · simp [handleSearch, hn, buildSuccess]
    · rw [mem_search]
      refine ⟨hmem, ?_⟩
      have hc : strContains (strUpper r.vin) (strUpper v) = true := by
        rw [hupper]
        exact strContains_self (strUpper r.vin)
      simp [recordMatches, vinPred, dealerPred, woNoPred, datePred,
            strategyPred, StrategyMatcher.matches, hc]

/-- Concrete record used to witness the VIN case-insensitivity claim. -/
def c4Record : WorkOrderRecord :=
  { credate := ⟨2024, 3, 10⟩, dealer_code := "D001", vin := "ABC123XYZ",
    wono := "WO1001", strategy := StrategyId.GERMANY }

/-- Witness for C4 at a concrete input: a lower-case search for the exact
VIN of the record finds the record. -/
theorem C4_witness :
    ∃ l, (handleSearch { vin := some "abc123xyz" }
            (Except.ok [c4Record])).work_orders = some l ∧ c4Record ∈ l :=
  C4_vin_predicate_case_insensitive_substring.2.2 c4Record [c4Record]
    "abc123xyz" (List.mem_singleton.mpr rfl) (by decide) (by rfl) (by decide)

/-- Claim C5: the date-range predicate uses inclusive bounds with open sides —
no bound means no constraint, a set bound constrains inclusively, and a
record whose creation date equals either bound of a well-ordered range
passes. -/
theorem C5_date_range_inclusive_open_sides :
    (∀ (c : SearchCriteria) (r : WorkOrderRecord),
       c.date_from = none → c.date_to = none → datePred c r = true) ∧
    (∀ (c : SearchCriteria) (r : WorkOrderRecord),
       datePred c r = true ↔
         ((∀ a, c.date_from = some a → Date.le a r.credate = true) ∧
          (∀ b, c.date_to = some b → Date.le r.credate b = true))) ∧
    (∀ (a b : Date) (r : WorkOrderRecord),
       Date.le a b = true → (r.credate = a ∨ r.credate = b) →
       datePred { vin := none, dealer_code := none, wo_no := none,
                  date_from := some a, date_to := some b,
                  strategies := [] } r = true) := by
  refine ⟨?_, ?_, ?_⟩
  · intro c r h1 h2
    simp [datePred, h1, h2]
  · intro c r
    cases hf : c.date_from <;> cases ht : c.date_to <;>
      simp [datePred, hf, ht]
  · intro a b r hab hcr
    cases hcr with
    | inl h => simp [datePred, h, date_le_refl, hab]
    | inr h => simp [datePred, h, date_le_refl, hab]

/-- Concrete record used to witness the inclusive-bounds claim. -/
def c5Record : WorkOrderRecord :=
  { credate := ⟨2024, 3, 1⟩, dealer_code := "D001", vin := "VIN1",
    wono := "WO1", strategy := StrategyId.FRANCE }

/-- Witness for C5 at a concrete input: a record dated exactly on
`date_from` passes the date-range predicate. -/
theorem C5_witness :
    datePred { vin := none, dealer_code := none, wo_no := none,
               date_from := some ⟨2024, 3, 1⟩, date_to := some ⟨2024, 3, 31⟩,
               strategies := [] } c5Record = true :=
  C5_date_range_inclusive_open_sides.2.2 ⟨2024, 3, 1⟩ ⟨2024, 3, 31⟩ c5Record
    (by decide) (Or.inl rfl)

/-- Claim C9: in the simplified component, a `success:false` response only sets
the error message and leaves the previously displayed `workOrders`
unchanged; `workOrders` is replaced only on `success:true`, defaulting to
the empty array when `work_orders` is absent. -/
theorem C9_failure_retains_stale_results (st : ComponentState)
    (resp : FrontResponse) :
    (searchRound st resp).workOrders =
      (if resp.success then resp.work_orders.getD [] else st.workOrders) ∧
    (searchRound st resp).error =
      (if resp.success then "" else resp.message) ∧
    (searchRound st resp).isLoading = false := by
  cases h : resp.success <;>
    simp [searchRound, searchStart, handleNext, h]

/-- A single `onStrategyChange` call leaves at most one strategy flag set,
whatever the prior state. -/
theorem onStrategyChange_count_le_one (s : String)
    (c : LegacyWorkOrderSearchRequest) :
    strategyFlagCount (onStrategyChange s c) ≤ 1 := by
  simp only [onStrategyChange]
  repeat' split
  all_goals simp [strategyFlagCount]

/-- Claim C10: every `onStrategyChange` call first clears all eight
`ostrateji_*` flags and then sets at most one, so starting from the
initial criteria, after any sequence of calls at most one strategy flag is
set. -/
theorem C10_at_most_one_strategy_flag (calls : List String) :
    (∀ (s : String) (c : LegacyWorkOrderSearchRequest),
       strategyFlagCount (onStrategyChange s c) ≤ 1) ∧
    strategyFlagCount
      (calls.foldl (fun c s => onStrategyChange s c)
        initialLegacyCriteria) ≤ 1 := by
  refine ⟨onStrategyChange_count_le_one, ?_⟩
  have hfold : ∀ (l : List String) (c : LegacyWorkOrderSearchRequest),
      strategyFlagCount c ≤ 1 →
      strategyFlagCount (l.foldl (fun acc s => onStrategyChange s acc) c) ≤ 1 := by
    intro l
    induction l with
    | nil => intro c h; exact h
    | cons s rest ih =>
      intro c _
      exact ih (onStrategyChange s c) (onStrategyChange_count_le_one s c)
  exact hfold calls initialLegacyCriteria (by decide)

end CATS
